import Mathlib

/-!
Shallow embedding of `src/cyhy_config/cyhy_config.py` (cisagov/cyhy-config).

The module resolves a CyHy configuration: `get_config` first tries the AWS
SSM parameter store (`read_config_ssm`), then falls back to a filesystem
search (`find_config_file` followed by `read_config_file`), and optionally
validates the decoded TOML mapping against a pydantic model
(`validate_config`).

External collaborators (the process environment, the filesystem, the SSM
client, and the TOML decoder `tomllib`) are modelled as components of a
`World` record, so that the resolution pipeline becomes a pure function of
the world and its arguments.  Pydantic model construction is an external
library call; where a claim needs its behavior it is modelled from the
spec as an explicit schema-descriptor construction.
-/

namespace CyhyConfig

/-- A TOML value, as produced by `tomllib` decoding. -/
inductive TomlValue : Type where
  | str : String → TomlValue
  | int : Int → TomlValue
  | bool : Bool → TomlValue
  | arr : List TomlValue → TomlValue
  | table : List (String × TomlValue) → TomlValue

/-- The untyped mapping produced by decoding TOML (a Python `dict`). -/
abbrev ConfigMapping := List (String × TomlValue)

/-- Outcome of `ssm.get_parameter(Name=path, WithDecryption=True)`:
either a parameter value, a `ClientError` with code `ParameterNotFound`,
or a `ClientError` with some other error code. -/
inductive SSMResult : Type where
  | value : String → SSMResult
  | parameterNotFound : SSMResult
  | clientError : String → SSMResult

/-- A single validation violation reported by schema construction:
the offending field name together with the kind of violation. -/
abbrev Violation := String × String

/-- The exceptions the module can raise.  `fileNotFound` embeds Python's
`FileNotFoundError` (the spec's `NotFoundError`), `remoteError` the
re-raised `ClientError` (the spec's `RemoteError`), `tomlDecodeError` the
`tomllib.TOMLDecodeError` (the spec's `SyntaxError`), and
`validationError` the pydantic `ValidationError` (the spec's
`SchemaError`). -/
inductive CyhyError : Type where
  | fileNotFound : String → CyhyError
  | remoteError : String → CyhyError
  | tomlDecodeError : String → CyhyError
  | validationError : List Violation → CyhyError

/-- The value returned by the resolution pipeline: either the untyped
mapping (no model supplied) or a validated model instance of type `I`. -/
inductive ConfigResult (I : Type) : Type where
  | dict : ConfigMapping → ConfigResult I
  | inst : I → ConfigResult I

/-- A caller-supplied schema: pydantic's `model(**config_dict)`, which
either constructs an instance or raises a `ValidationError` enumerating
violations. -/
abbrev SchemaModel (I : Type) := ConfigMapping → Except (List Violation) I

/-- The filesystem as seen by the module: `Path.exists`, `os.path.isfile`,
file contents, and `Path.home()`. -/
structure FileSystem : Type where
  pathExists : String → Bool
  isFile : String → Bool
  fileContent : String → String
  home : String

/-- The SSM remote parameter store. -/
structure Remote : Type where
  ssmGet : String → SSMResult

/-- The ambient world of one resolution call: the process environment
(`environ.get`), the filesystem, the remote store, and the TOML decoder
(`tomllib.loads` / `tomllib.load`, which parses the raw text and either
yields a mapping or raises a `TOMLDecodeError`). -/
structure World : Type where
  env : String → Option String
  fs : FileSystem
  remote : Remote
  tomlLoads : String → Except String ConfigMapping

/-- `CONFIG_PATH_CWD = Path("cyhy.toml")`. -/
def CONFIG_PATH_CWD : String := "cyhy.toml"

/-- `CONFIG_PATH_ETC = Path("/etc/cyhy.toml")`. -/
def CONFIG_PATH_ETC : String := "/etc/cyhy.toml"

/-- `CONFIG_PATH_HOME = Path.home() / ".cyhy/cyhy.toml"`. -/
def CONFIG_PATH_HOME (fs : FileSystem) : String := fs.home ++ "/.cyhy/cyhy.toml"

/-- `CYHY_CONFIG_PATH_ENV = "CYHY_CONFIG_PATH"`. -/
def CYHY_CONFIG_PATH_ENV : String := "CYHY_CONFIG_PATH"

/-- `CYHY_CONFIG_SSM_PATH_ENV = "CYHY_CONFIG_SSM_PATH"`. -/
def CYHY_CONFIG_SSM_PATH_ENV : String := "CYHY_CONFIG_SSM_PATH"

/-- Python truthiness of an optional string (`if file_path:`):
`None` and the empty string are falsy. -/
def optStrTruthy : Option String → Bool
  | none => false
  | some s => !s.isEmpty

/-- Python truthiness of a resolution result (`if config:`): a `dict` is
truthy iff non-empty; a pydantic model instance is always truthy. -/
def resultTruthy {I : Type} : ConfigResult I → Bool
  | .dict m => !m.isEmpty
  | .inst _ => true

/-- `validate_config(config_dict, model)`: with no model, return the
mapping unchanged; otherwise construct the model instance, re-raising any
`ValidationError`. -/
def validate_config {I : Type} (config_dict : ConfigMapping)
    (model : Option (SchemaModel I)) : Except CyhyError (ConfigResult I) :=
  match model with
  | none => .ok (.dict config_dict)
  | some m =>
    match m config_dict with
    | .ok config => .ok (.inst config)
    | .error e => .error (.validationError e)

/-- One loop-body iteration of `read_config_ssm` for a truthy `path`:
issue `ssm.get_parameter`; on `ParameterNotFound` return `None`; on any
other `ClientError` re-raise; on a value, decode it with `tomllib.loads`
(re-raising `TOMLDecodeError`) and return `validate_config`'s result. -/
def ssm_fetch {I : Type} (w : World) (path : String)
    (model : Option (SchemaModel I)) :
    Except CyhyError (Option (ConfigResult I)) :=
  match w.remote.ssmGet path with
  | .parameterNotFound => .ok none
  | .clientError e => .error (.remoteError e)
  | .value param_value =>
    match w.tomlLoads param_value with
    | .error e => .error (.tomlDecodeError e)
    | .ok config_dict =>
      match validate_config config_dict model with
      | .ok c => .ok (some c)
      | .error e => .error e

/-- The `for path, source in ssm_paths:` loop of `read_config_ssm`: the
first truthy path is fetched and its outcome returned; if no path is
truthy the loop falls through and the function returns `None`. -/
def ssm_loop {I : Type} (w : World) (model : Option (SchemaModel I)) :
    List (Option String) → Except CyhyError (Option (ConfigResult I))
  | [] => .ok none
  | path :: rest =>
    if optStrTruthy path then ssm_fetch w (path.getD "") model
    else ssm_loop w model rest

/-- `read_config_ssm(ssm_path, model)`: iterate over
`[(ssm_path, "path"), (environ.get(CYHY_CONFIG_SSM_PATH_ENV), "environment variable")]`. -/
def read_config_ssm {I : Type} (w : World) (ssm_path : Option String)
    (model : Option (SchemaModel I)) :
    Except CyhyError (Option (ConfigResult I)) :=
  ssm_loop w model [ssm_path, w.env CYHY_CONFIG_SSM_PATH_ENV]

/-- `find_config_file(file_path)`: try, in order, the explicit argument,
the `CYHY_CONFIG_PATH` environment variable, `./cyhy.toml`,
`~/.cyhy/cyhy.toml`, and `/etc/cyhy.toml`, returning the first candidate
that exists; raise `FileNotFoundError` if none does.  (A truthy candidate
that does not exist is logged and skipped.) -/
def find_config_file (w : World) (file_path : Option String) :
    Except CyhyError String :=
  if optStrTruthy file_path && w.fs.pathExists (file_path.getD "") then
    .ok (file_path.getD "")
  else
    let env_file_value := w.env CYHY_CONFIG_PATH_ENV
    if optStrTruthy env_file_value && w.fs.pathExists (env_file_value.getD "") then
      .ok (env_file_value.getD "")
    else if w.fs.pathExists CONFIG_PATH_CWD then
      .ok CONFIG_PATH_CWD
    else if w.fs.pathExists (CONFIG_PATH_HOME w.fs) then
      .ok (CONFIG_PATH_HOME w.fs)
    else if w.fs.pathExists CONFIG_PATH_ETC then
      .ok CONFIG_PATH_ETC
    else
      .error (.fileNotFound "No CyHy configuration file found.")

/-- `read_config_file(config_file, model)`: raise `FileNotFoundError` if
the path is not a regular file; otherwise decode its contents with
`tomllib.load` (re-raising `TOMLDecodeError`) and validate. -/
def read_config_file {I : Type} (w : World) (config_file : String)
    (model : Option (SchemaModel I)) : Except CyhyError (ConfigResult I) :=
  if !w.fs.isFile config_file then
    .error (.fileNotFound ("Config file not found: " ++ config_file))
  else
    match w.tomlLoads (w.fs.fileContent config_file) with
    | .error e => .error (.tomlDecodeError e)
    | .ok config_dict => validate_config config_dict model

/-- The filesystem half of `get_config`: locate the configuration file,
propagating `FileNotFoundError`, then read it. -/
def get_config_fs {I : Type} (w : World) (file_path : Option String)
    (model : Option (SchemaModel I)) : Except CyhyError (ConfigResult I) :=
  match find_config_file w file_path with
  | .error e => .error e
  | .ok config_file_path => read_config_file w config_file_path model

/-- `get_config(file_path, ssm_path, model)`: first try SSM; if that
yields a truthy config, return it; otherwise fall through to the
filesystem search.  Any exception from either half propagates. -/
def get_config {I : Type} (w : World) (file_path ssm_path : Option String)
    (model : Option (SchemaModel I)) : Except CyhyError (ConfigResult I) :=
  match read_config_ssm w ssm_path model with
  | .error e => .error e
  | .ok (some config) =>
    if resultTruthy config then .ok config
    else get_config_fs w file_path model
  | .ok none => get_config_fs w file_path model

/-! ### Derived descriptions of the search used by the theorems -/

/-- The candidate of filesystem precedence tier `k` (for `k` in `1..5`):
`some p` when tier `k` has an existing filesystem candidate `p`, `none`
when that tier contributes no candidate (slot empty or path missing). -/
def tierCandidate (w : World) (file_path : Option String) : Nat → Option String
  | 1 =>
    if optStrTruthy file_path && w.fs.pathExists (file_path.getD "") then
      some (file_path.getD "")
    else none
  | 2 =>
    if optStrTruthy (w.env CYHY_CONFIG_PATH_ENV) &&
        w.fs.pathExists ((w.env CYHY_CONFIG_PATH_ENV).getD "") then
      some ((w.env CYHY_CONFIG_PATH_ENV).getD "")
    else none
  | 3 => if w.fs.pathExists CONFIG_PATH_CWD then some CONFIG_PATH_CWD else none
  | 4 =>
    if w.fs.pathExists (CONFIG_PATH_HOME w.fs) then some (CONFIG_PATH_HOME w.fs)
    else none
  | 5 => if w.fs.pathExists CONFIG_PATH_ETC then some CONFIG_PATH_ETC else none
  | _ => none

/-- The first non-empty SSM key among the two candidate slots of
`read_config_ssm`: the explicit `ssm_path` argument, then the
`CYHY_CONFIG_SSM_PATH` environment variable. -/
def firstSSMKey (w : World) (ssm_path : Option String) : Option String :=
  if optStrTruthy ssm_path then some (ssm_path.getD "")
  else if optStrTruthy (w.env CYHY_CONFIG_SSM_PATH_ENV) then
    some ((w.env CYHY_CONFIG_SSM_PATH_ENV).getD "")
  else none

/-! ### Bridging lemmas -/

lemma ite_some_none_eq_none {α : Type} {c : Prop} [Decidable c] {x : α}
    (h : (if c then some x else none) = none) : ¬c := by
  intro hc
  rw [if_pos hc] at h
  exact Option.noConfusion h

lemma ite_some_none_eq_some {α : Type} {c : Prop} [Decidable c] {x y : α}
    (h : (if c then some x else none) = some y) : c ∧ x = y := by
  by_cases hc : c
  · rw [if_pos hc] at h
    exact ⟨hc, Option.some.injEq x y ▸ h⟩
  · rw [if_neg hc] at h
    exact absurd h (by simp)

/-- `read_config_ssm` fetches exactly the first non-empty key slot, and
returns `None` without any remote call when both slots are empty. -/
lemma read_config_ssm_eq_firstKey {I : Type} (w : World)
    (ssm_path : Option String) (model : Option (SchemaModel I)) :
    read_config_ssm w ssm_path model =
      match firstSSMKey w ssm_path with
      | some k => ssm_fetch w k model
      | none => .ok none := by
  unfold read_config_ssm ssm_loop firstSSMKey
  by_cases h1 : optStrTruthy ssm_path = true
  · simp [h1]
  · simp only [Bool.not_eq_true] at h1
    by_cases h2 : optStrTruthy (w.env CYHY_CONFIG_SSM_PATH_ENV) = true
    · simp [h1, h2, ssm_loop]
    · simp only [Bool.not_eq_true] at h2
      simp [h1, h2, ssm_loop]

/-- `read_config_ssm` never touches the filesystem. -/
lemma read_config_ssm_fs_indep {I : Type} (w : World) (fs' : FileSystem)
    (ssm_path : Option String) (model : Option (SchemaModel I)) :
    read_config_ssm { w with fs := fs' } ssm_path model =
      read_config_ssm w ssm_path model := rfl

/-! ### Concrete worlds used by witnesses and counterexamples -/

/-- A world whose only existing filesystem path is `./cyhy.toml`, with no
environment variables set and an empty remote store. -/
def w1 : World :=
  { env := fun _ => none
    fs :=
      { pathExists := fun p => p == "cyhy.toml"
        isFile := fun p => p == "cyhy.toml"
        fileContent := fun _ => "a = 1"
        home := "/home/u" }
    remote := { ssmGet := fun _ => .parameterNotFound }
    tomlLoads := fun s => if s == "a = 1" then .ok [("a", .int 1)] else .error "bad" }

/-! ### Claims -/

/-- C1: for every precedence tier `k` in `1..5` (explicit path argument,
environment-variable path, `./cyhy.toml`, `~/.cyhy/cyhy.toml`,
`/etc/cyhy.toml`), if an existing filesystem candidate is present at tier
`k` and no candidate exists at tiers `1..k-1`, then `find_config_file`
returns exactly tier `k`'s path. -/
theorem C1_tier_precedence (w : World) (file_path : Option String)
    (k : Nat) (p : String) (hk1 : 1 ≤ k) (hk5 : k ≤ 5)
    (hc : tierCandidate w file_path k = some p)
    (hprev : ∀ j, 1 ≤ j → j < k → tierCandidate w file_path j = none) :
    find_config_file w file_path = .ok p := by
  interval_cases k
  · simp only [tierCandidate] at hc
    obtain ⟨h1, rfl⟩ := ite_some_none_eq_some hc
    simp [find_config_file, h1]
  · simp only [tierCandidate] at hc
    have h1 := ite_some_none_eq_none
      (by simpa only [tierCandidate] using hprev 1 (by omega) (by omega))
    obtain ⟨h2, rfl⟩ := ite_some_none_eq_some hc
    simp only [Bool.not_eq_true] at h1
    simp [find_config_file, h1, h2]
  · simp only [tierCandidate] at hc
    have h1 := ite_some_none_eq_none
      (by simpa only [tierCandidate] using hprev 1 (by omega) (by omega))
    have h2 := ite_some_none_eq_none
      (by simpa only [tierCandidate] using hprev 2 (by omega) (by omega))
    obtain ⟨h3, rfl⟩ := ite_some_none_eq_some hc
    simp only [Bool.not_eq_true] at h1 h2
    simp [find_config_file, h1, h2, h3]
  · simp only [tierCandidate] at hc
    have h1 := ite_some_none_eq_none
      (by simpa only [tierCandidate] using hprev 1 (by omega) (by omega))
    have h2 := ite_some_none_eq_none
      (by simpa only [tierCandidate] using hprev 2 (by omega) (by omega))
    have h3 := ite_some_none_eq_none
      (by simpa only [tierCandidate] using hprev 3 (by omega) (by omega))
    obtain ⟨h4, rfl⟩ := ite_some_none_eq_some hc
    simp only [Bool.not_eq_true] at h1 h2 h3
    simp [find_config_file, h1, h2, h3, h4]
  · simp only [tierCandidate] at hc
    have h1 := ite_some_none_eq_none
      (by simpa only [tierCandidate] using hprev 1 (by omega) (by omega))
    have h2 := ite_some_none_eq_none
      (by simpa only [tierCandidate] using hprev 2 (by omega) (by omega))
    have h3 := ite_some_none_eq_none
      (by simpa only [tierCandidate] using hprev 3 (by omega) (by omega))
    have h4 := ite_some_none_eq_none
      (by simpa only [tierCandidate] using hprev 4 (by omega) (by omega))
    obtain ⟨h5, rfl⟩ := ite_some_none_eq_some hc
    simp only [Bool.not_eq_true] at h1 h2 h3 h4
    simp [find_config_file, h1, h2, h3, h4, h5]

/-- C1 witness: in `w1` the current-directory tier (tier 3) holds the
only candidate, and `find_config_file` returns `./cyhy.toml`. -/
theorem C1_tier_precedence_witness :
    tierCandidate w1 none 3 = some "cyhy.toml" ∧
    find_config_file w1 none = Except.ok "cyhy.toml" := by
  have hprev : ∀ j, 1 ≤ j → j < 3 → tierCandidate w1 none j = none := by
    intro j hj1 hj3
    interval_cases j <;> rfl
  exact ⟨rfl, C1_tier_precedence w1 none 3 "cyhy.toml" (by omega) (by omega) rfl hprev⟩

/-- If no tier in `1..5` contributes a candidate, `find_config_file`
raises `FileNotFoundError`. -/
lemma find_config_file_no_candidate (w : World) (file_path : Option String)
    (h : ∀ j, 1 ≤ j → j ≤ 5 → tierCandidate w file_path j = none) :
    find_config_file w file_path =
      .error (.fileNotFound "No CyHy configuration file found.") := by
  have h1 := ite_some_none_eq_none
    (by simpa only [tierCandidate] using h 1 (by omega) (by omega))
  have h2 := ite_some_none_eq_none
    (by simpa only [tierCandidate] using h 2 (by omega) (by omega))
  have h3 := ite_some_none_eq_none
    (by simpa only [tierCandidate] using h 3 (by omega) (by omega))
  have h4 := ite_some_none_eq_none
    (by simpa only [tierCandidate] using h 4 (by omega) (by omega))
  have h5 := ite_some_none_eq_none
    (by simpa only [tierCandidate] using h 5 (by omega) (by omega))
  simp only [Bool.not_eq_true] at h1 h2 h3 h4 h5
  simp [find_config_file, h1, h2, h3, h4, h5]

/-- A world in which nothing exists: no environment variables, no files,
no remote parameters. -/
def w0 : World :=
  { env := fun _ => none
    fs :=
      { pathExists := fun _ => false
        isFile := fun _ => false
        fileContent := fun _ => ""
        home := "/home/u" }
    remote := { ssmGet := fun _ => .parameterNotFound }
    tomlLoads := fun _ => .error "bad" }

/-- A world where the explicit SSM key is absent from the store while the
`CYHY_CONFIG_SSM_PATH` environment variable names a key that would
succeed, and `./cyhy.toml` exists. -/
def w4 : World :=
  { env := fun n => if n == "CYHY_CONFIG_SSM_PATH" then some "envkey" else none
    fs := w1.fs
    remote :=
      { ssmGet := fun k => if k == "k1" then .parameterNotFound else .value "a = 1" }
    tomlLoads := w1.tomlLoads }

/-- A world where every SSM request fails with an access-denied
`ClientError`, while `./cyhy.toml` exists and holds valid TOML. -/
def w5 : World :=
  { env := fun _ => none
    fs := w1.fs
    remote := { ssmGet := fun _ => .clientError "AccessDeniedException" }
    tomlLoads := w1.tomlLoads }

/-- A world where the remote store returns an empty TOML document for
every key, while `./cyhy.toml` exists and holds valid TOML. -/
def w9 : World :=
  { env := fun _ => none
    fs := w1.fs
    remote := { ssmGet := fun _ => .value "" }
    tomlLoads := fun s =>
      if s == "" then .ok []
      else if s == "a = 1" then .ok [("a", .int 1)]
      else .error "bad" }

/-- C4: only the first non-empty key among the two candidate slots is
ever sent to the store; if the store reports `ParameterNotFound` for it,
`read_config_ssm` returns `None` (never trying the second slot, since the
conclusion holds for every environment), and `get_config` falls through
to filesystem resolution instead of failing. -/
theorem C4_first_key_not_found {I : Type} (w : World)
    (file_path ssm_path : Option String) (model : Option (SchemaModel I))
    (k : String) (hk : firstSSMKey w ssm_path = some k)
    (hnf : w.remote.ssmGet k = .parameterNotFound) :
    read_config_ssm w ssm_path model = .ok none ∧
    get_config w file_path ssm_path model = get_config_fs w file_path model := by
  have h := read_config_ssm_eq_firstKey w ssm_path model
  rw [hk] at h
  have hr : read_config_ssm w ssm_path model = .ok none := by
    rw [h]; simp [ssm_fetch, hnf]
  exact ⟨hr, by simp [get_config, hr]⟩

/-- C4 witness: in `w4` the explicit key `k1` is not found; the
environment key `envkey` (which would succeed) is never attempted, and
resolution falls through to the existing `./cyhy.toml`. -/
theorem C4_first_key_not_found_witness :
    w4.env CYHY_CONFIG_SSM_PATH_ENV = some "envkey" ∧
    w4.remote.ssmGet "envkey" = .value "a = 1" ∧
    (read_config_ssm w4 (some "k1") (none : Option (SchemaModel ConfigMapping)) =
        .ok none ∧
      get_config w4 none (some "k1") (none : Option (SchemaModel ConfigMapping)) =
        get_config_fs w4 none none) := by
  exact ⟨rfl, rfl, C4_first_key_not_found w4 none (some "k1") none "k1" rfl rfl⟩

/-- C5: when the remote store fails with any `ClientError` other than
`ParameterNotFound`, `get_config` raises `RemoteError` immediately; the
conclusion holds for every filesystem, so no fallback is ever attempted. -/
theorem C5_remote_error_fatal {I : Type} (w : World)
    (file_path ssm_path : Option String) (model : Option (SchemaModel I))
    (k e : String) (hk : firstSSMKey w ssm_path = some k)
    (herr : w.remote.ssmGet k = .clientError e) :
    get_config w file_path ssm_path model = .error (.remoteError e) := by
  have h := read_config_ssm_eq_firstKey w ssm_path model
  rw [hk] at h
  have hr : read_config_ssm w ssm_path model = .error (.remoteError e) := by
    rw [h]; simp [ssm_fetch, herr]
  simp [get_config, hr]

/-- C5 witness: in `w5` a valid `./cyhy.toml` exists, yet the
access-denied remote failure aborts resolution with `RemoteError`. -/
theorem C5_remote_error_fatal_witness :
    w5.fs.pathExists "cyhy.toml" = true ∧
    read_config_file w5 "cyhy.toml" (none : Option (SchemaModel ConfigMapping)) =
      .ok (.dict [("a", .int 1)]) ∧
    get_config w5 none (some "k1") (none : Option (SchemaModel ConfigMapping)) =
      .error (.remoteError "AccessDeniedException") := by
  exact ⟨rfl, rfl, C5_remote_error_fatal w5 none (some "k1") none "k1"
    "AccessDeniedException" rfl rfl⟩

/-- C6: with no remote source configured and no existing candidate in any
of the five filesystem tiers, `get_config` fails with the
`FileNotFoundError` raised by `find_config_file`, synthesizing no default
value. -/
theorem C6_nothing_found {I : Type} (w : World)
    (file_path ssm_path : Option String) (model : Option (SchemaModel I))
    (hssm : firstSSMKey w ssm_path = none)
    (hfs : ∀ j, 1 ≤ j → j ≤ 5 → tierCandidate w file_path j = none) :
    get_config w file_path ssm_path model =
      .error (.fileNotFound "No CyHy configuration file found.") := by
  have h := read_config_ssm_eq_firstKey w ssm_path model
  rw [hssm] at h
  simp [get_config, h, get_config_fs, find_config_file_no_candidate w file_path hfs]

/-- C6 witness: in the empty world `w0`, resolution fails with
`FileNotFoundError`. -/
theorem C6_nothing_found_witness :
    get_config w0 none none (none : Option (SchemaModel ConfigMapping)) =
      .error (.fileNotFound "No CyHy configuration file found.") := by
  have hfs : ∀ j, 1 ≤ j → j ≤ 5 → tierCandidate w0 none j = none := by
    intro j hj1 hj5
    interval_cases j <;> rfl
  exact C6_nothing_found w0 none none none rfl hfs

/-- C9: a remote success whose decoded mapping is empty is treated as
absent when no model is supplied: `get_config` proceeds to filesystem
resolution instead of returning the empty mapping. -/
theorem C9_empty_remote_falls_through {I : Type} (w : World)
    (file_path ssm_path : Option String) (k s : String)
    (hk : firstSSMKey w ssm_path = some k)
    (hv : w.remote.ssmGet k = .value s)
    (hd : w.tomlLoads s = .ok []) :
    get_config w file_path ssm_path (none : Option (SchemaModel I)) =
      get_config_fs w file_path none := by
  have h := read_config_ssm_eq_firstKey w ssm_path (none : Option (SchemaModel I))
  rw [hk] at h
  have hr : read_config_ssm w ssm_path (none : Option (SchemaModel I)) =
      .ok (some (.dict [])) := by
    rw [h]; simp [ssm_fetch, hv, hd, validate_config]
  simp [get_config, hr, resultTruthy]

/-- C9 witness: in `w9` the store returns an empty TOML document for
`k1`, and `get_config` instead returns the mapping decoded from the
existing `./cyhy.toml`. -/
theorem C9_empty_remote_falls_through_witness :
    w9.remote.ssmGet "k1" = .value "" ∧
    w9.tomlLoads "" = .ok [] ∧
    get_config w9 none (some "k1") (none : Option (SchemaModel ConfigMapping)) =
      get_config_fs w9 none none ∧
    get_config_fs w9 none (none : Option (SchemaModel ConfigMapping)) =
      .ok (.dict [("a", .int 1)]) := by
  exact ⟨rfl, rfl,
    C9_empty_remote_falls_through w9 none (some "k1") "k1" "" rfl rfl rfl, rfl⟩

/-- A world where the explicit path `cfg.toml` exists and decodes to
`{v = 2}`, while the remote store returns a document decoding to
`{v = 1}` for every key. -/
def w2 : World :=
  { env := fun _ => none
    fs :=
      { pathExists := fun p => p == "cfg.toml"
        isFile := fun p => p == "cfg.toml"
        fileContent := fun _ => "v = 2"
        home := "/home/u" }
    remote := { ssmGet := fun _ => .value "v = 1" }
    tomlLoads := fun s =>
      if s == "v = 1" then .ok [("v", .int 1)]
      else if s == "v = 2" then .ok [("v", .int 2)]
      else .error "bad" }

/-- C2 counterexample: in `w2` the explicit file-path argument
`cfg.toml` names an existing file whose decoded mapping is `{v = 2}`,
yet `get_config` returns the remote store's `{v = 1}`: the explicit path
does NOT have higher precedence than the remote parameter store. -/
theorem C2_counterexample :
    w2.fs.pathExists "cfg.toml" = true ∧
    read_config_file w2 "cfg.toml" (none : Option (SchemaModel ConfigMapping)) =
      .ok (.dict [("v", .int 2)]) ∧
    get_config w2 (some "cfg.toml") (some "k1")
        (none : Option (SchemaModel ConfigMapping)) =
      .ok (.dict [("v", .int 1)]) ∧
    (ConfigResult.dict [("v", TomlValue.int 1)] : ConfigResult ConfigMapping) ≠
      .dict [("v", .int 2)] := by
  refine ⟨rfl, rfl, rfl, by simp⟩

/-- C2 (amended): the remote parameter store has higher precedence than
the explicit file-path argument.  When the remote store supplies a truthy
configuration, `get_config` returns it even though the explicit path
names an existing file; the explicit path is selected only once the
remote attempt yields nothing. -/
theorem C2_remote_precedes_explicit_path {I : Type} (w : World)
    (ssm_path : Option String) (model : Option (SchemaModel I)) (p : String)
    (hne : p.isEmpty = false) (hex : w.fs.pathExists p = true) :
    (∀ c, read_config_ssm w ssm_path model = .ok (some c) →
      resultTruthy c = true → get_config w (some p) ssm_path model = .ok c) ∧
    (read_config_ssm w ssm_path model = .ok none →
      get_config w (some p) ssm_path model = read_config_file w p model) := by
  constructor
  · intro c hr ht
    simp [get_config, hr, ht]
  · intro hr
    have hfind : find_config_file w (some p) = .ok p := by
      simp [find_config_file, optStrTruthy, hne, hex]
    simp [get_config, hr, get_config_fs, hfind]

/-- C2 witness: in `w2` the remote value wins over the existing explicit
path; in `w1` (remote key absent) the explicit existing path is read. -/
theorem C2_remote_precedes_explicit_path_witness :
    get_config w2 (some "cfg.toml") (some "k1")
        (none : Option (SchemaModel ConfigMapping)) =
      .ok (.dict [("v", .int 1)]) ∧
    get_config w1 (some "cyhy.toml") (some "k1")
        (none : Option (SchemaModel ConfigMapping)) =
      read_config_file w1 "cyhy.toml" none := by
  constructor
  · exact (C2_remote_precedes_explicit_path w2 (some "k1") none "cfg.toml"
      rfl rfl).1 (.dict [("v", .int 1)]) rfl rfl
  · exact (C2_remote_precedes_explicit_path w1 (some "k1") none "cyhy.toml"
      rfl rfl).2 rfl

/-- C3 counterexample: in `w9` the remote store returns a value (the
empty TOML document) for the configured key `k1`, yet `get_config` does
consult the filesystem and returns `./cyhy.toml`'s mapping rather than
the decoded remote value: remote success does not always bypass the
filesystem. -/
theorem C3_counterexample :
    w9.remote.ssmGet "k1" = .value "" ∧
    w9.tomlLoads "" = .ok [] ∧
    get_config w9 none (some "k1") (none : Option (SchemaModel ConfigMapping)) =
      .ok (.dict [("a", .int 1)]) ∧
    (ConfigResult.dict [] : ConfigResult ConfigMapping) ≠
      .dict [("a", .int 1)] := by
  refine ⟨rfl, rfl, rfl, by simp⟩

/-- C3 (amended): exactly one of remote success and filesystem success
supplies the returned configuration and the two are never merged; and
whenever the remote store returns a value whose decoded-and-validated
configuration is truthy (a non-empty mapping, or any model instance),
`get_config` returns exactly that value for every filesystem, i.e.
without consulting the filesystem.  (A remote value decoding to an empty
mapping with no model is treated as absent and falls through.) -/
theorem C3_exclusive_sources {I : Type} (w : World)
    (file_path ssm_path : Option String) (model : Option (SchemaModel I)) :
    ((∃ c, read_config_ssm w ssm_path model = .ok (some c) ∧
        resultTruthy c = true ∧
        get_config w file_path ssm_path model = .ok c) ∨
      get_config w file_path ssm_path model = get_config_fs w file_path model ∨
      (∃ e, read_config_ssm w ssm_path model = .error e ∧
        get_config w file_path ssm_path model = .error e)) ∧
    (∀ c, read_config_ssm w ssm_path model = .ok (some c) →
      resultTruthy c = true →
      ∀ fs', get_config { w with fs := fs' } file_path ssm_path model = .ok c) := by
  constructor
  · cases hr : read_config_ssm w ssm_path model with
    | error e => exact Or.inr (Or.inr ⟨e, rfl, by simp [get_config, hr]⟩)
    | ok oc =>
      cases oc with
      | none => exact Or.inr (Or.inl (by simp [get_config, hr]))
      | some c =>
        cases ht : resultTruthy c with
        | false => exact Or.inr (Or.inl (by simp [get_config, hr, ht]))
        | true => exact Or.inl ⟨c, rfl, ht, by simp [get_config, hr, ht]⟩
  · intro c hr ht fs'
    have hr' : read_config_ssm { w with fs := fs' } ssm_path model = .ok (some c) := by
      rw [read_config_ssm_fs_indep]; exact hr
    simp [get_config, hr', ht]

/-- C3 witness: with `w2`'s remote store but `w0`'s empty filesystem,
`get_config` still returns the remote mapping. -/
theorem C3_exclusive_sources_witness :
    get_config { w2 with fs := w0.fs } (some "cfg.toml") (some "k1")
        (none : Option (SchemaModel ConfigMapping)) =
      .ok (.dict [("v", .int 1)]) := by
  exact (C3_exclusive_sources w2 (some "cfg.toml") (some "k1") none).2
    (.dict [("v", .int 1)]) rfl rfl w0.fs

/-- A world whose only existing path `confdir` is not a regular file
(e.g. a directory). -/
def w10 : World :=
  { env := fun _ => none
    fs :=
      { pathExists := fun p => p == "confdir"
        isFile := fun _ => false
        fileContent := fun _ => ""
        home := "/home/u" }
    remote := { ssmGet := fun _ => .parameterNotFound }
    tomlLoads := fun _ => .error "bad" }

/-- C10: an explicit path that exists but is not a regular file passes
`find_config_file`'s existence check and is returned as the candidate,
after which `read_config_file`'s `os.path.isfile` guard raises
`FileNotFoundError`, so `get_config` fails with `FileNotFoundError`
rather than a decode error. -/
theorem C10_exists_but_not_file {I : Type} (w : World)
    (ssm_path : Option String) (model : Option (SchemaModel I)) (p : String)
    (hne : p.isEmpty = false) (hex : w.fs.pathExists p = true)
    (hnf : w.fs.isFile p = false) (hssm : firstSSMKey w ssm_path = none) :
    find_config_file w (some p) = .ok p ∧
    get_config w (some p) ssm_path model =
      .error (.fileNotFound ("Config file not found: " ++ p)) := by
  have hfind : find_config_file w (some p) = .ok p := by
    simp [find_config_file, optStrTruthy, hne, hex]
  have hr := read_config_ssm_eq_firstKey w ssm_path model
  rw [hssm] at hr
  refine ⟨hfind, ?_⟩
  simp [get_config, hr, get_config_fs, hfind, read_config_file, hnf]

/-- C10 witness: in `w10` the directory `confdir` is accepted as the
candidate and `get_config` then fails with `FileNotFoundError`. -/
theorem C10_exists_but_not_file_witness :
    find_config_file w10 (some "confdir") = .ok "confdir" ∧
    get_config w10 (some "confdir") none (none : Option (SchemaModel ConfigMapping)) =
      .error (.fileNotFound ("Config file not found: " ++ "confdir")) := by
  exact C10_exists_but_not_file w10 none none "confdir" rfl rfl rfl rfl

/-- With no model, a successful `read_config_file` yields exactly the
mapping decoded from the file's contents. -/
lemma read_config_file_no_model {I : Type} (w : World) (path : String)
    (c : ConfigResult I)
    (h : read_config_file w path (none : Option (SchemaModel I)) = .ok c) :
    ∃ m, w.tomlLoads (w.fs.fileContent path) = .ok m ∧ c = .dict m := by
  unfold read_config_file at h
  split at h
  · exact absurd h (by simp)
  · cases ht : w.tomlLoads (w.fs.fileContent path) with
    | error e => rw [ht] at h; exact absurd h (by simp)
    | ok m =>
      rw [ht] at h
      simp only [validate_config, Except.ok.injEq] at h
      exact ⟨m, rfl, h.symm⟩

/-- With no model, a truthy `ssm_fetch` result is exactly the mapping
decoded from the fetched parameter value. -/
lemma ssm_fetch_no_model {I : Type} (w : World) (k : String)
    (c : ConfigResult I)
    (h : ssm_fetch w k (none : Option (SchemaModel I)) = .ok (some c)) :
    ∃ m s, w.tomlLoads s = .ok m ∧ c = .dict m := by
  unfold ssm_fetch at h
  cases hg : w.remote.ssmGet k with
  | parameterNotFound => rw [hg] at h; exact absurd h (by simp)
  | clientError e => rw [hg] at h; exact absurd h (by simp)
  | value s =>
    rw [hg] at h
    simp only at h
    cases ht : w.tomlLoads s with
    | error e => rw [ht] at h; exact absurd h (by simp)
    | ok m =>
      rw [ht] at h
      simp only [validate_config, Except.ok.injEq, Option.some.injEq] at h
      exact ⟨m, s, ht, h.symm⟩

/-- A non-`None` success of `read_config_ssm` comes from fetching the
first non-empty key slot. -/
lemma read_config_ssm_ok_some {I : Type} (w : World) (ssm_path : Option String)
    (model : Option (SchemaModel I)) (c : ConfigResult I)
    (h : read_config_ssm w ssm_path model = .ok (some c)) :
    ∃ k, firstSSMKey w ssm_path = some k ∧ ssm_fetch w k model = .ok (some c) := by
  rw [read_config_ssm_eq_firstKey] at h
  cases hk : firstSSMKey w ssm_path with
  | none => rw [hk] at h; exact absurd h (by simp)
  | some k => rw [hk] at h; exact ⟨k, rfl, h⟩

/-- With no model, a successful filesystem half of `get_config` yields a
decoded mapping. -/
lemma get_config_fs_no_model {I : Type} (w : World) (file_path : Option String)
    (c : ConfigResult I)
    (h : get_config_fs w file_path (none : Option (SchemaModel I)) = .ok c) :
    ∃ m s, w.tomlLoads s = .ok m ∧ c = .dict m := by
  unfold get_config_fs at h
  cases hf : find_config_file w file_path with
  | error e => rw [hf] at h; exact absurd h (by simp)
  | ok path =>
    rw [hf] at h
    obtain ⟨m, hm, hc⟩ := read_config_file_no_model w path c h
    exact ⟨m, w.fs.fileContent path, hm, hc⟩

/-- C8: with no model supplied, `validate_config` is the identity
pass-through on the mapping, and consequently any configuration
`get_config` returns without a model is exactly a mapping decoded by the
TOML decoder, unchanged. -/
theorem C8_no_model_passthrough {I : Type} (w : World)
    (file_path ssm_path : Option String) :
    (∀ m : ConfigMapping,
      validate_config m (none : Option (SchemaModel I)) = .ok (.dict m)) ∧
    (∀ c, get_config w file_path ssm_path (none : Option (SchemaModel I)) = .ok c →
      ∃ m s, w.tomlLoads s = .ok m ∧ c = .dict m) := by
  constructor
  · intro m
    rfl
  · intro c h
    unfold get_config at h
    cases hr : read_config_ssm w ssm_path (none : Option (SchemaModel I)) with
    | error e => rw [hr] at h; exact absurd h (by simp)
    | ok oc =>
      rw [hr] at h
      cases oc with
      | none => exact get_config_fs_no_model w file_path c h
      | some cc =>
        simp only at h
        by_cases ht : resultTruthy cc = true
        · rw [if_pos ht] at h
          obtain ⟨k, _, hk⟩ := read_config_ssm_ok_some w ssm_path none cc hr
          obtain ⟨m, s, hm, hc⟩ := ssm_fetch_no_model w k cc hk
          have hcc : cc = c := by simpa using h
          exact ⟨m, s, hm, hcc ▸ hc⟩
        · rw [if_neg ht] at h
          exact get_config_fs_no_model w file_path c h

/-- C8 witness: in `w1` the no-model resolution returns `./cyhy.toml`'s
decoded mapping unchanged. -/
theorem C8_no_model_passthrough_witness :
    validate_config [("a", TomlValue.int 1)] (none : Option (SchemaModel ConfigMapping)) =
      .ok (.dict [("a", .int 1)]) ∧
    ∃ m s, w1.tomlLoads s = .ok m ∧
      (ConfigResult.dict [("a", TomlValue.int 1)] : ConfigResult ConfigMapping) = .dict m := by
  exact ⟨(C8_no_model_passthrough w1 none none).1 [("a", TomlValue.int 1)],
    (C8_no_model_passthrough w1 none none).2 (.dict [("a", .int 1)]) rfl⟩

/-! ### Schema construction (the pydantic collaborator)

`validate_config` calls `model(**config_dict)`, which is pydantic library
code, not code of this repository.  Its behavior is modelled from the
spec's Validator contract and schema-descriptor design note. -/

/-- The scalar field types a schema may declare. -/
inductive FieldType : Type where
  | tStr : FieldType
  | tInt : FieldType
  | tBool : FieldType

/-- Whether a TOML value has the declared field type. -/
def typeOk : FieldType → TomlValue → Bool
  | .tStr, .str _ => true
  | .tInt, .int _ => true
  | .tBool, .bool _ => true
  | _, _ => false

/-- Modelled from the spec: one entry of a schema descriptor —
`describe_fields() -> [(name, type, required)]` — declaring a field's
name, its expected type, and whether it is required. -/
structure FieldSpec : Type where
  name : String
  ftype : FieldType
  required : Bool

/-- The violation recorded for a field: missing required field, or
type mismatch. -/
def checkField (m : ConfigMapping) (f : FieldSpec) : Option Violation :=
  match m.lookup f.name with
  | none => if f.required then some (f.name, "missing") else none
  | some v => if typeOk f.ftype v then none else some (f.name, "type")

/-- Modelled from the spec: pydantic-style schema construction
(`model(**config_dict)`) — `construct(mapping) -> instance | violations`:
collect every violation over all declared fields; if there are none,
populate an instance from the mapping's fields, otherwise fail with the
full list of violations. -/
def constructSchema (sd : List FieldSpec) : SchemaModel ConfigMapping := fun m =>
  let viols := sd.filterMap (checkField m)
  if viols.isEmpty then
    .ok (sd.filterMap fun f => (m.lookup f.name).map fun v => (f.name, v))
  else .error viols

/-- A field specification is satisfied by a mapping: present with the
declared type, or absent and not required. -/
def fieldSatisfied (m : ConfigMapping) (f : FieldSpec) : Prop :=
  match m.lookup f.name with
  | none => f.required = false
  | some v => typeOk f.ftype v = true

/-- Looking up a key absent from `m` in the populated instance finds
nothing either. -/
lemma inst_lookup_of_not_mem (sd : List FieldSpec) (m : ConfigMapping)
    (n : String) (hn : m.lookup n = none) :
    (sd.filterMap fun g => (m.lookup g.name).map fun v => (g.name, v)).lookup n =
      none := by
  induction sd with
  | nil => rfl
  | cons g t ih =>
    cases hgl : m.lookup g.name with
    | none => simpa [List.filterMap_cons, hgl] using ih
    | some v =>
      simp only [List.filterMap_cons, hgl, Option.map_some']
      have hbeq : (n == g.name) = false := by
        cases hb : n == g.name with
        | false => rfl
        | true =>
          rw [eq_of_beq hb] at hn
          rw [hn] at hgl
          exact Option.noConfusion hgl
      simp [List.lookup, hbeq, ih]

/-- The populated instance agrees with the mapping on every declared
field. -/
lemma inst_lookup_agrees (sd : List FieldSpec) (m : ConfigMapping)
    (f : FieldSpec) (hf : f ∈ sd) :
    (sd.filterMap fun g => (m.lookup g.name).map fun v => (g.name, v)).lookup f.name =
      m.lookup f.name := by
  induction sd with
  | nil => cases hf
  | cons g t ih =>
    cases hgl : m.lookup g.name with
    | none =>
      simp only [List.filterMap_cons, hgl, Option.map_none']
      rcases List.mem_cons.mp hf with heq | hmem
      · subst heq
        rw [hgl, inst_lookup_of_not_mem t m f.name hgl]
      · exact ih hmem
    | some v =>
      simp only [List.filterMap_cons, hgl, Option.map_some']
      cases hbeq : f.name == g.name with
      | true =>
        rw [eq_of_beq hbeq, hgl]
        simp [List.lookup, hbeq]
      | false =>
        rcases List.mem_cons.mp hf with heq | hmem
        · subst heq
          simp at hbeq
        · simp only [List.lookup, hbeq]
          exact ih hmem

/-- C7: against the spec-modelled pydantic constructor, a mapping
missing a required field makes `validate_config` raise a `SchemaError`
listing that field among the enumerated violations, while a mapping
satisfying every declared field yields a fully populated instance whose
field values match the mapping's values. -/
theorem C7_schema_validation (sd : List FieldSpec) (m : ConfigMapping) :
    (∀ f, f ∈ sd → f.required = true → m.lookup f.name = none →
      ∃ e, validate_config m (some (constructSchema sd)) =
          .error (.validationError e) ∧ (f.name, "missing") ∈ e) ∧
    ((∀ f, f ∈ sd → fieldSatisfied m f) →
      ∃ inst, validate_config m (some (constructSchema sd)) = .ok (.inst inst) ∧
        ∀ f, f ∈ sd → inst.lookup f.name = m.lookup f.name) := by
  constructor
  · intro f hf hreq hlk
    have hcf : checkField m f = some (f.name, "missing") := by
      simp [checkField, hlk, hreq]
    have hmem : (f.name, "missing") ∈ sd.filterMap (checkField m) :=
      List.mem_filterMap.mpr ⟨f, hf, hcf⟩
    have hne : (sd.filterMap (checkField m)).isEmpty = false := by
      cases hE : sd.filterMap (checkField m) with
      | nil => rw [hE] at hmem; cases hmem
      | cons a t => rfl
    refine ⟨sd.filterMap (checkField m), ?_, hmem⟩
    simp [validate_config, constructSchema, hne]
  · intro hall
    have hcf : ∀ f ∈ sd, checkField m f = none := by
      intro f hf
      have hs := hall f hf
      unfold fieldSatisfied at hs
      cases hlk : m.lookup f.name with
      | none =>
        rw [hlk] at hs
        simp only at hs
        simp [checkField, hlk, hs]
      | some v =>
        rw [hlk] at hs
        simp only at hs
        simp [checkField, hlk, hs]
    have hviols : sd.filterMap (checkField m) = [] :=
      List.filterMap_eq_nil_iff.mpr hcf
    refine ⟨sd.filterMap fun f => (m.lookup f.name).map fun v => (f.name, v),
      ?_, ?_⟩
    · simp [validate_config, constructSchema, hviols]
    · intro f hf
      exact inst_lookup_agrees sd m f hf

/-- C7 witness: the schema declaring one required string field `env`
rejects the empty mapping with a "missing env" violation and accepts
`{env = "prod"}` with a populated instance. -/
theorem C7_schema_validation_witness :
    (∃ e, validate_config ([] : ConfigMapping)
        (some (constructSchema [⟨"env", .tStr, true⟩])) =
          .error (.validationError e) ∧ ("env", "missing") ∈ e) ∧
    (∃ inst, validate_config [("env", TomlValue.str "prod")]
        (some (constructSchema [⟨"env", .tStr, true⟩])) = .ok (.inst inst) ∧
      ∀ f, f ∈ [FieldSpec.mk "env" FieldType.tStr true] →
        inst.lookup f.name = List.lookup f.name [("env", TomlValue.str "prod")]) := by
  constructor
  · exact (C7_schema_validation [⟨"env", .tStr, true⟩] []).1
      ⟨"env", .tStr, true⟩ (by simp) rfl rfl
  · exact (C7_schema_validation [⟨"env", .tStr, true⟩]
      [("env", TomlValue.str "prod")]).2
      (by intro f hf; rw [List.mem_singleton] at hf; subst hf; rfl)

end CyhyConfig
